import Mathlib

/-!
Shallow embedding of the bookstore API (`src/bookstore_app/views.py`).

The repository's only source file is `views.py`; it configures Django REST
Framework (DRF) generic views over models `Author`, `Category`, `Book` and the
framework's `User`/`Token`. The embedding below translates:

  * the data model (`models.py` is not in the sources; records carry the fields
    the views and the spec use),
  * the DRF machinery that the views configure — `IsAuthenticated` permission
    checking, `PageNumberPagination` (as subclassed by `CustomPagination`),
    `SearchFilter`, `OrderingFilter`, `Token.objects.get_or_create`, and the
    `AuthTokenSerializer` credential check used by `ObtainAuthToken` — with
    their documented framework semantics,
  * the view classes themselves: `BookViewSet` (list/create/retrieve/update/
    destroy), `BookDetailView`, `BookCreateView`, `BookListView`,
    `UserRegistrationView`, `UserLoginView`.

Strings are modelled as `List Char`. Database rows are records in lists inside
a `Store`; serialization is modelled as the identity on records (the
serializers only rename/convert fields). Views that write return a pair of the
response and the new store; read-only views are pure functions of the store.
-/

deriving instance DecidableEq for Except

/-- An `Author` row: identifier and name. -/
structure Author where
  id : Nat
  name : List Char
  deriving DecidableEq

/-- A `Category` row: identifier and name. -/
structure Category where
  id : Nat
  name : List Char
  deriving DecidableEq

/-- A `Book` row: identifier, title, description, and foreign keys to one
`Author` and one `Category`. -/
structure Book where
  id : Nat
  title : List Char
  description : List Char
  authorId : Nat
  categoryId : Nat
  deriving DecidableEq

/-- A `User` row: identifier, username, email and (hashed) password. The hash
is modelled as the password itself; only equality of the check matters. -/
structure User where
  id : Nat
  username : List Char
  email : List Char
  password : List Char
  deriving DecidableEq

/-- A `Token` row (`rest_framework.authtoken.models.Token`): an opaque key
keyed to exactly one user. -/
structure TokenRec where
  userId : Nat
  key : List Char
  deriving DecidableEq

/-- The database state the views read and write, plus the auto-increment
counters the storage engine keeps for fresh identifiers and token keys. -/
structure Store where
  authors : List Author
  categories : List Category
  books : List Book
  users : List User
  tokens : List TokenRec
  nextBookId : Nat
  nextUserId : Nat
  nextKeySeed : Nat
  deriving DecidableEq

/-- A field-level error entry as DRF renders it: field name to message. -/
structure FieldError where
  field : List Char
  message : List Char
  deriving DecidableEq

/-- Ordering keys a client can request via the `ordering` query parameter
(`OrderingFilter`); the orderable fields are the serializer's fields, of which
we model the two the data model fixes. -/
inductive OrderKey where
  | byId
  | byTitle
  deriving DecidableEq

/-- Query parameters of a request, as the views read them. `search` is the raw
search string (`''` when absent, exactly as DRF reads it); `author__name` and
`category__name` are the filter parameters the spec describes. -/
structure QueryParams where
  search : List Char := []
  ordering : Option OrderKey := none
  pageSize : Option Nat := none
  page : Nat := 1
  authorName : Option (List Char) := none
  categoryName : Option (List Char) := none
  deriving DecidableEq

/-- An HTTP request as the views see it: the authenticated caller (`none` when
the request carries no valid credentials) and the query parameters. -/
structure Request where
  auth : Option Nat := none
  params : QueryParams := {}
  deriving DecidableEq

/-! ### Permissions (`rest_framework.permissions`) -/

/-- The permission classes that occur: `IsAuthenticated` (set explicitly on
`BookViewSet`) and `AllowAny` (the framework's default for views that declare
no `permission_classes`). -/
inductive Perm where
  | isAuthenticated
  | allowAny
  deriving DecidableEq

/-- `has_permission` of a single permission class. -/
def Perm.check : Perm → Option Nat → Bool
  | .isAuthenticated, auth => auth.isSome
  | .allowAny, _ => true

/-- `APIView.check_permissions`: every configured permission must grant. -/
def checkPermissions (perms : List Perm) (auth : Option Nat) : Bool :=
  perms.all (fun p => p.check auth)

/-- `BookViewSet.permission_classes = [IsAuthenticated]` (views.py line 41). -/
def bookViewSetPerms : List Perm := [.isAuthenticated]

/-- `BookDetailView` declares no `permission_classes`; DRF's default
`DEFAULT_PERMISSION_CLASSES` is `[AllowAny]`. -/
def bookDetailViewPerms : List Perm := [.allowAny]

/-- `BookCreateView` declares no `permission_classes`: framework default. -/
def bookCreateViewPerms : List Perm := [.allowAny]

/-- `BookListView` declares no `permission_classes`: framework default. -/
def bookListViewPerms : List Perm := [.allowAny]

/-! ### Search (`rest_framework.filters.SearchFilter`) -/

/-- Lower-case a string, character by character. -/
def lowerStr (s : List Char) : List Char := s.map Char.toLower

/-- Whether `pre` is a prefix of `l` (over characters). -/
def charPrefix : List Char → List Char → Bool
  | [], _ => true
  | _ :: _, [] => false
  | a :: as, b :: bs => a = b && charPrefix as bs

/-- Whether `needle` occurs contiguously inside `hay`. -/
def containsSub (needle : List Char) : List Char → Bool
  | [] => needle.isEmpty
  | c :: rest => charPrefix needle (c :: rest) || containsSub needle rest

/-- The database `icontains` lookup: case-insensitive substring. -/
def icontains (needle hay : List Char) : Bool :=
  containsSub (lowerStr needle) (lowerStr hay)

/-- Characters on which `SearchFilter.get_search_terms` separates terms: the
search parameter has `','` replaced by `' '` and is then split on
whitespace. -/
def isSepChar (c : Char) : Bool :=
  c = ' ' || c = ',' || c = '\t' || c = '\n' || c = '\r'

/-- Split the raw search parameter into terms (`cur` is the reversed current
term being accumulated), as `params.replace(',', ' ').split()` does. -/
def splitTerms (cur : List Char) : List Char → List (List Char)
  | [] => if cur.isEmpty then [] else [cur.reverse]
  | c :: rest =>
    if isSepChar c then
      if cur.isEmpty then splitTerms [] rest
      else cur.reverse :: splitTerms [] rest
    else splitTerms (c :: cur) rest

/-- `SearchFilter.get_search_terms` on the raw `search` parameter. -/
def getSearchTerms (q : List Char) : List (List Char) := splitTerms [] q

/-- One search term matches a book when it occurs case-insensitively in the
title or in the description (`search_fields = ['title', 'description']`,
views.py line 45; default `icontains` lookup, terms OR-ed across fields). -/
def termMatches (t : List Char) (b : Book) : Bool :=
  icontains t b.title || icontains t b.description

/-- `SearchFilter.filter_queryset`: no terms leaves the queryset unchanged;
otherwise a book is kept when every term matches (AND across terms). -/
def searchFilter (q : List Char) (books : List Book) : List Book :=
  let terms := getSearchTerms q
  if terms.isEmpty then books
  else books.filter (fun b => terms.all (fun t => termMatches t b))

/-! ### Ordering (`rest_framework.filters.OrderingFilter`) -/

/-- Lexicographic comparison of strings, for title ordering. -/
def charListLe : List Char → List Char → Bool
  | [], _ => true
  | _ :: _, [] => false
  | a :: as, b :: bs => if a = b then charListLe as bs else decide (a < b)

/-- Comparison used when the client orders by a key. -/
def OrderKey.le : OrderKey → Book → Book → Bool
  | .byId, a, b => a.id ≤ b.id
  | .byTitle, a, b => charListLe a.title b.title

/-- `OrderingFilter.filter_queryset`: no `ordering` parameter (and no default
ordering on the view) leaves the queryset unchanged; otherwise sort. -/
def orderingFilter (o : Option OrderKey) (books : List Book) : List Book :=
  match o with
  | none => books
  | some k => books.mergeSort k.le

/-! ### Filter backends and `GenericAPIView.filter_queryset` -/

/-- The filter backends that occur in `views.py`. `DjangoFilterBackend` is
*not* among them: `BookViewSet.filter_backends = [SearchFilter,
OrderingFilter]` (line 43), and `filterset_fields` (line 44) is only consumed
by `DjangoFilterBackend`. -/
inductive FilterBackend where
  | search
  | ordering
  deriving DecidableEq

/-- Apply one backend's `filter_queryset`. -/
def FilterBackend.apply : FilterBackend → QueryParams → List Book → List Book
  | .search, p, bs => searchFilter p.search bs
  | .ordering, p, bs => orderingFilter p.ordering bs

/-- `GenericAPIView.filter_queryset`: fold the configured backends, in order,
over the queryset. -/
def filterQueryset (backends : List FilterBackend) (p : QueryParams)
    (books : List Book) : List Book :=
  backends.foldl (fun acc b => b.apply p acc) books

/-- `BookViewSet.filter_backends = [SearchFilter, OrderingFilter]`. -/
def bookViewSetBackends : List FilterBackend := [.search, .ordering]

/-- `BookListView` declares no `filter_backends`; DRF's default
`DEFAULT_FILTER_BACKENDS` is empty. -/
def bookListViewBackends : List FilterBackend := []

/-! ### Pagination (`CustomPagination`, views.py lines 30-33) -/

/-- `CustomPagination.page_size = 10`. -/
def customPaginationDefaultSize : Nat := 10

/-- `CustomPagination.max_page_size = 100`. -/
def customPaginationMaxSize : Nat := 100

/-- `PageNumberPagination.get_page_size`: when the `page_size` query parameter
is present it is parsed as a strictly positive integer and cut off at
`max_page_size`; otherwise (absent, or not strictly positive) the default
`page_size` is used. -/
def getPageSize (param : Option Nat) : Nat :=
  match param with
  | none => customPaginationDefaultSize
  | some n =>
    if n = 0 then customPaginationDefaultSize
    else min n customPaginationMaxSize

/-- Django's `Paginator` slice for a 1-based page number: page `p` holds items
`[(p-1)*size, p*size)`. Page 1 is always valid (even when empty); a later page
is valid only when its slice is non-empty; page 0 and invalid pages yield
`none` (the view turns this into a 404). -/
def paginateQueryset (size page : Nat) (items : List Book) : Option (List Book) :=
  if page = 0 then none
  else
    let chunk := (items.drop ((page - 1) * size)).take size
    if page = 1 then some chunk
    else if chunk.isEmpty then none else some chunk

/-! ### Serializers

`serializers.py` is part of the repository but not among the provided sources;
the validation logic of `BookSerializer` and `UserSerializer` is modelled from
the spec where noted. -/

/-- The JSON body of a book create/update request. -/
structure BookPayload where
  title : List Char
  description : List Char
  authorId : Nat
  categoryId : Nat
  deriving DecidableEq

/-- Modelled from the spec: `BookSerializer.is_valid` — `serializers.py` is
not among the provided sources. Per the spec, the serializer enforces field
presence ("field presence/type constraints": a book must have a title) and
referential integrity ("every Book must reference an existing Author and
Category"; "Creating a Book with a non-existent author/category identifier
fails with a validation error"). Returns the field-level errors, all of them
(full-payload validation), or the validated row content. -/
def bookSerializerValidate (st : Store) (p : BookPayload) :
    Except (List FieldError) BookPayload :=
  let errs :=
    (if p.title.isEmpty then [⟨['t','i','t','l','e'], ['r','e','q','u','i','r','e','d']⟩] else [])
    ++ (if (st.authors.find? (fun a => a.id = p.authorId)).isSome then []
        else [⟨['a','u','t','h','o','r'], ['d','o','e','s',' ','n','o','t',' ','e','x','i','s','t']⟩])
    ++ (if (st.categories.find? (fun c => c.id = p.categoryId)).isSome then []
        else [⟨['c','a','t','e','g','o','r','y'], ['d','o','e','s',' ','n','o','t',' ','e','x','i','s','t']⟩])
  if errs.isEmpty then .ok p else .error errs

/-- The JSON body of a registration request. -/
structure RegPayload where
  username : List Char
  email : List Char
  password : List Char
  deriving DecidableEq

/-- Modelled from the spec: `UserSerializer.is_valid` — `serializers.py` is
not among the provided sources. Per the spec, registration "validates format
and uniqueness": the three fields must be present and the username must not
duplicate an existing user. `none` means the payload is valid. -/
def userSerializerValidate (st : Store) (p : RegPayload) :
    Option (List FieldError) :=
  let errs :=
    (if p.username.isEmpty then [⟨['u','s','e','r','n','a','m','e'], ['r','e','q','u','i','r','e','d']⟩]
     else if (st.users.find? (fun u => u.username = p.username)).isSome then
       [⟨['u','s','e','r','n','a','m','e'], ['a','l','r','e','a','d','y',' ','e','x','i','s','t','s']⟩]
     else [])
    ++ (if p.email.isEmpty then [⟨['e','m','a','i','l'], ['r','e','q','u','i','r','e','d']⟩] else [])
    ++ (if p.password.isEmpty then [⟨['p','a','s','s','w','o','r','d'], ['r','e','q','u','i','r','e','d']⟩] else [])
  if errs.isEmpty then none else some errs

/-! ### Book endpoints -/

/-- Responses of the book list endpoint. -/
inductive ListResp where
  | ok (books : List Book)
  | unauthorized
  | notFound
  deriving DecidableEq

/-- Responses of single-book read endpoints. -/
inductive BookResp where
  | ok (b : Book)
  | unauthorized
  | notFound
  deriving DecidableEq

/-- Responses of book create endpoints. -/
inductive CreateResp where
  | created (b : Book)
  | badRequest (errs : List FieldError)
  | unauthorized
  deriving DecidableEq

/-- Responses of the book update endpoint. -/
inductive UpdateResp where
  | ok (b : Book)
  | badRequest (errs : List FieldError)
  | unauthorized
  | notFound
  deriving DecidableEq

/-- Responses of the book delete endpoint. -/
inductive DeleteResp where
  | noContent
  | unauthorized
  | notFound
  deriving DecidableEq

/-- `BookViewSet.list` (views.py lines 51-55, via `ListModelMixin.list`):
permission check, then `filter_queryset(self.get_queryset())` with the
configured backends, then pagination with `CustomPagination`. -/
def BookViewSet.list (req : Request) (st : Store) : ListResp :=
  if checkPermissions bookViewSetPerms req.auth then
    let qs := filterQueryset bookViewSetBackends req.params st.books
    match paginateQueryset (getPageSize req.params.pageSize) req.params.page qs with
    | some pageItems => .ok pageItems
    | none => .notFound
  else .unauthorized

/-- `BookViewSet.create` (views.py lines 62-69): permission check, then
`serializer.is_valid(raise_exception=True)` before `serializer.save()`; an
invalid payload raises and nothing is persisted. -/
def BookViewSet.create (req : Request) (st : Store) (p : BookPayload) :
    CreateResp × Store :=
  if checkPermissions bookViewSetPerms req.auth then
    match bookSerializerValidate st p with
    | .error errs => (.badRequest errs, st)
    | .ok v =>
      let b : Book := ⟨st.nextBookId, v.title, v.description, v.authorId, v.categoryId⟩
      (.created b, { st with books := st.books ++ [b], nextBookId := st.nextBookId + 1 })
  else (.unauthorized, st)

/-- `BookViewSet.retrieve` (views.py lines 75-79, via `RetrieveModelMixin`):
permission check, then lookup by primary key, 404 when absent. -/
def BookViewSet.retrieve (req : Request) (st : Store) (bid : Nat) : BookResp :=
  if checkPermissions bookViewSetPerms req.auth then
    match st.books.find? (fun b => b.id = bid) with
    | some b => .ok b
    | none => .notFound
  else .unauthorized

/-- `BookViewSet.update` (views.py lines 86-90, via `UpdateModelMixin`):
permission check, object lookup, full-payload validation before save; the row
keeps its identifier and takes the payload's fields. -/
def BookViewSet.update (req : Request) (st : Store) (bid : Nat)
    (p : BookPayload) : UpdateResp × Store :=
  if checkPermissions bookViewSetPerms req.auth then
    match st.books.find? (fun b => b.id = bid) with
    | none => (.notFound, st)
    | some _ =>
      match bookSerializerValidate st p with
      | .error errs => (.badRequest errs, st)
      | .ok v =>
        let b : Book := ⟨bid, v.title, v.description, v.authorId, v.categoryId⟩
        (.ok b, { st with books := st.books.map (fun old => if old.id = bid then b else old) })
  else (.unauthorized, st)

/-- `BookViewSet.destroy` (views.py lines 96-100, via `DestroyModelMixin`):
permission check, object lookup, row deletion, 204. -/
def BookViewSet.destroy (req : Request) (st : Store) (bid : Nat) :
    DeleteResp × Store :=
  if checkPermissions bookViewSetPerms req.auth then
    match st.books.find? (fun b => b.id = bid) with
    | none => (.notFound, st)
    | some _ =>
      (.noContent, { st with books := st.books.filter (fun b => b.id ≠ bid) })
  else (.unauthorized, st)

/-- `BookDetailView` (views.py lines 102-107): a `RetrieveAPIView` over all
books with no `permission_classes` of its own. -/
def BookDetailView.retrieve (req : Request) (st : Store) (bid : Nat) : BookResp :=
  if checkPermissions bookDetailViewPerms req.auth then
    match st.books.find? (fun b => b.id = bid) with
    | some b => .ok b
    | none => .notFound
  else .unauthorized

/-- `BookCreateView` (views.py lines 109-114): a `CreateAPIView` with no
`permission_classes` of its own; `CreateModelMixin.create` validates then
saves. -/
def BookCreateView.create (req : Request) (st : Store) (p : BookPayload) :
    CreateResp × Store :=
  if checkPermissions bookCreateViewPerms req.auth then
    match bookSerializerValidate st p with
    | .error errs => (.badRequest errs, st)
    | .ok v =>
      let b : Book := ⟨st.nextBookId, v.title, v.description, v.authorId, v.categoryId⟩
      (.created b, { st with books := st.books ++ [b], nextBookId := st.nextBookId + 1 })
  else (.unauthorized, st)

/-- The rendering context `BookListView.list` builds (views.py lines 132-136). -/
structure ListPageContext where
  authors : List Author
  categories : List Category
  books : List Book
  deriving DecidableEq

/-- Responses of the listing page endpoint. -/
inductive ListPageResp where
  | ok (ctx : ListPageContext)
  | unauthorized
  deriving DecidableEq

/-- `BookListView.list` (views.py lines 127-137): fetches `Author.objects.all()`
and `Category.objects.all()`, applies `filter_queryset` (this view configures
no filter backends) to the book queryset, serialises the whole of each set —
no pagination is invoked — and renders the three together. The view performs
no write, so it is a pure function of the store. -/
def BookListView.list (req : Request) (st : Store) : ListPageResp :=
  if checkPermissions bookListViewPerms req.auth then
    .ok ⟨st.authors, st.categories,
         filterQueryset bookListViewBackends req.params st.books⟩
  else .unauthorized

/-! ### Registration and login -/

/-- Responses of the registration endpoint (views.py line 149 on success). -/
inductive RegResp where
  | created (userId : Nat) (username : List Char)
  | badRequest (errs : List FieldError)
  deriving DecidableEq

/-- `UserRegistrationView.create` (views.py lines 145-149):
`serializer.is_valid(raise_exception=True)` then `serializer.save()`; on
success the response carries the new user's identifier and username. -/
def UserRegistrationView.create (st : Store) (p : RegPayload) :
    RegResp × Store :=
  match userSerializerValidate st p with
  | some errs => (.badRequest errs, st)
  | none =>
    let u : User := ⟨st.nextUserId, p.username, p.email, p.password⟩
    (.created u.id u.username,
     { st with users := st.users ++ [u], nextUserId := st.nextUserId + 1 })

/-- `AuthTokenSerializer.validate` (framework code behind `ObtainAuthToken`,
views.py lines 156-157): authenticate with the submitted username and
password; `some user` on success, `none` when authentication fails for any
reason (unknown username or wrong password alike). -/
def authTokenValidate (st : Store) (username password : List Char) :
    Option User :=
  match st.users.find? (fun u => u.username = username) with
  | none => none
  | some u => if u.password = password then some u else none

/-- The single non-field error `AuthTokenSerializer` raises on failed
authentication: "Unable to log in with provided credentials." — the same
whichever credential was wrong. -/
def authFailErrors : List FieldError :=
  [⟨['n','o','n','_','f','i','e','l','d','_','e','r','r','o','r','s'],
    ['b','a','d',' ','c','r','e','d','e','n','t','i','a','l','s']⟩]

/-- The opaque token key the framework generates for the n-th token; the
store's `nextKeySeed` makes generation deterministic. -/
def genTokenKey (seed : Nat) : List Char := 'k' :: Nat.toDigits 10 seed

/-- `Token.objects.get_or_create(user=user)` (views.py line 159): return the
user's existing token unchanged, or create one with a fresh key. The `Bool` is
Django's `created` flag. -/
def tokenGetOrCreate (st : Store) (uid : Nat) : TokenRec × Bool × Store :=
  match st.tokens.find? (fun t => t.userId = uid) with
  | some t => (t, false, st)
  | none =>
    let t : TokenRec := ⟨uid, genTokenKey st.nextKeySeed⟩
    (t, true,
     { st with tokens := st.tokens ++ [t], nextKeySeed := st.nextKeySeed + 1 })

/-- Responses of the login endpoint (views.py lines 160-167). -/
inductive LoginResp where
  | ok (userId : Nat) (username email token : List Char)
  | badRequest (errs : List FieldError)
  deriving DecidableEq

/-- `UserLoginView.post` (views.py lines 155-167): validate the credentials;
on success fetch-or-create the token and return user id, username, email and
the token key; on failure return the serializer errors with status 400 and
touch nothing. -/
def UserLoginView.post (st : Store) (username password : List Char) :
    LoginResp × Store :=
  match authTokenValidate st username password with
  | some user =>
    let r := tokenGetOrCreate st user.id
    (.ok user.id user.username user.email r.1.key, r.2.2)
  | none => (.badRequest authFailErrors, st)

/-! ### Spec-side auxiliary definitions

These follow the spec's words rather than the code; they exist only to be
compared with the code-derived definitions above. -/

/-- The author name a book refers to, looked up in the store. -/
def authorNameOf (st : Store) (b : Book) : Option (List Char) :=
  (st.authors.find? (fun a => a.id = b.authorId)).map (fun a => a.name)

/-- The category name a book refers to, looked up in the store. -/
def categoryNameOf (st : Store) (b : Book) : Option (List Char) :=
  (st.categories.find? (fun c => c.id = b.categoryId)).map (fun c => c.name)

/-- Spec's words ("Filtering: exact match on associated author name or
category name"): the books whose associated author/category name equals the
respective parameter exactly, when the parameter is present. -/
def specNameFilter (st : Store) (p : QueryParams) (books : List Book) :
    List Book :=
  let afterAuthor :=
    match p.authorName with
    | none => books
    | some n => books.filter (fun b => authorNameOf st b = some n)
  match p.categoryName with
  | none => afterAuthor
  | some n => afterAuthor.filter (fun b => categoryNameOf st b = some n)

/-- Spec's words ("case-insensitive substring match over title and description
fields"): the whole search string occurs, case-insensitively, in the title or
in the description. -/
def specSearchMatches (q : List Char) (b : Book) : Bool :=
  icontains q b.title || icontains q b.description

/-! ### Helper lemmas -/

/-- The empty needle occurs in every string. -/
lemma containsSub_nil (hay : List Char) : containsSub [] hay = true := by
  induction hay with
  | nil => rfl
  | cons c rest ih => simp [containsSub, charPrefix]

/-- Splitting a separator-free string yields the accumulated term alone. -/
lemma splitTerms_sepFree (q : List Char) (h : ∀ c ∈ q, isSepChar c = false) :
    ∀ cur, splitTerms cur q
      = if (cur.reverse ++ q).isEmpty then [] else [cur.reverse ++ q] := by
  induction q with
  | nil =>
    intro cur
    have hrev : cur.reverse.isEmpty = cur.isEmpty := by cases cur <;> simp
    simp [splitTerms, hrev]
  | cons c rest ih =>
    intro cur
    have hc : isSepChar c = false := h c (by simp)
    have hrest : ∀ d ∈ rest, isSepChar d = false := fun d hd => h d (by simp [hd])
    have := ih hrest (c :: cur)
    simp only [splitTerms, hc, Bool.false_eq_true, if_false, this]
    simp

/-- On a separator-free search string, `get_search_terms` yields the whole
string as the single term (or nothing when the string is empty). -/
lemma getSearchTerms_sepFree (q : List Char) (h : ∀ c ∈ q, isSepChar c = false) :
    getSearchTerms q = if q.isEmpty then [] else [q] := by
  have := splitTerms_sepFree q h []
  simpa [getSearchTerms] using this

/-- On a separator-free search string, the code's term-wise search coincides
with whole-string case-insensitive substring match. -/
lemma searchFilter_sepFree (q : List Char) (books : List Book)
    (h : ∀ c ∈ q, isSepChar c = false) :
    searchFilter q books = books.filter (fun b => specSearchMatches q b) := by
  cases hq : q.isEmpty
  · have ht := getSearchTerms_sepFree q h
    rw [hq] at ht
    simp only [Bool.false_eq_true, if_false] at ht
    simp [searchFilter, ht, termMatches, specSearchMatches]
  · have hnil : q = [] := by cases q <;> simp_all
    subst hnil
    have : ∀ b : Book, specSearchMatches [] b = true := by
      intro b
      simp [specSearchMatches, icontains, lowerStr, containsSub_nil]
    simp [searchFilter, getSearchTerms, splitTerms, List.filter_congr
      (fun b _ => this b), List.filter_true]

/-- A returned page never holds more items than the page size. -/
lemma paginate_length_le (size page : Nat) (items out : List Book)
    (h : paginateQueryset size page items = some out) : out.length ≤ size := by
  simp only [paginateQueryset] at h
  split at h
  · exact Option.noConfusion h
  · split at h
    · cases h
      exact List.length_take_le _ _
    · split at h
      · exact Option.noConfusion h
      · cases h
        exact List.length_take_le _ _

/-- Every item of a returned page comes from the paginated list. -/
lemma paginate_subset (size page : Nat) (items out : List Book)
    (h : paginateQueryset size page items = some out) :
    ∀ b ∈ out, b ∈ items := by
  intro b hb
  simp only [paginateQueryset] at h
  split at h
  · exact Option.noConfusion h
  · split at h
    · cases h
      exact List.mem_of_mem_drop (List.mem_of_mem_take hb)
    · split at h
      · exact Option.noConfusion h
      · cases h
        exact List.mem_of_mem_drop (List.mem_of_mem_take hb)

/-! ### Concrete fixtures for witnesses and counterexamples -/

/-- Fixture author "A". -/
def authA : Author := ⟨1, ['A']⟩

/-- Fixture author "B". -/
def authB : Author := ⟨2, ['B']⟩

/-- Fixture category "F". -/
def catF : Category := ⟨1, ['F']⟩

/-- Fixture book "Alpha" by author "A". -/
def bkAlpha : Book := ⟨1, ['A','l','p','h','a'], ['x'], 1, 1⟩

/-- Fixture book "Beta" by author "B". -/
def bkBeta : Book := ⟨2, ['B','e','t','a'], ['y'], 2, 1⟩

/-- Fixture user "u" with password "pw". -/
def userU : User := ⟨1, ['u'], ['u','@','e'], ['p','w']⟩

/-- Fixture store: two authors, one category, two books, one user, no
tokens. -/
def stA : Store := ⟨[authA, authB], [catF], [bkAlpha, bkBeta], [userU], [], 3, 2, 0⟩

/-- Fixture book whose title is "a b" (used against multi-term search). -/
def bkAB : Book := ⟨1, ['a',' ','b'], [], 1, 1⟩

/-- Fixture store holding only `bkAB`. -/
def stAB : Store := ⟨[authA], [catF], [bkAB], [], [], 2, 1, 0⟩


/-! ### Claim theorems -/

/-- C1 (counterexample): the claim extends the authentication requirement to
the separate detail, create and listing-page views, but those views declare no
`permission_classes`; under the framework default (`AllowAny`) an
unauthenticated retrieve through `BookDetailView` returns the book, and an
unauthenticated create through `BookCreateView` writes a book. -/
theorem bookDetailView_unauthenticated_returns_data :
    BookDetailView.retrieve { auth := none } stA 1 = .ok bkAlpha
  ∧ BookDetailView.retrieve { auth := none } stA 1 ≠ .unauthorized
  ∧ (BookCreateView.create { auth := none } stA ⟨['N','e','w'], [], 1, 1⟩).1
      = .created ⟨3, ['N','e','w'], [], 1, 1⟩
  ∧ (BookCreateView.create { auth := none } stA ⟨['N','e','w'], [], 1, 1⟩).2 ≠ stA := by
  refine ⟨by decide, by decide, by decide, by decide⟩

/-- C1 (amended): every operation of `BookViewSet` — list, create, retrieve,
update, destroy — rejects a request without an authenticated caller with an
authorization error, returning no book data and leaving the store
unchanged. -/
theorem bookViewSet_unauthenticated_rejected (req : Request) (st : Store)
    (bid : Nat) (p : BookPayload) (h : req.auth = none) :
    BookViewSet.list req st = .unauthorized
  ∧ BookViewSet.create req st p = (.unauthorized, st)
  ∧ BookViewSet.retrieve req st bid = .unauthorized
  ∧ BookViewSet.update req st bid p = (.unauthorized, st)
  ∧ BookViewSet.destroy req st bid = (.unauthorized, st) := by
  have hc : checkPermissions bookViewSetPerms req.auth = false := by
    simp [checkPermissions, bookViewSetPerms, Perm.check, h]
  refine ⟨?_, ?_, ?_, ?_, ?_⟩ <;>
    simp [BookViewSet.list, BookViewSet.create, BookViewSet.retrieve,
      BookViewSet.update, BookViewSet.destroy, hc]

/-- C1 (witness): the amended theorem applied to a concrete unauthenticated
request against the fixture store. -/
theorem bookViewSet_unauthenticated_rejected_witness :
    BookViewSet.list { auth := none } stA = .unauthorized
  ∧ BookViewSet.create { auth := none } stA ⟨['T'], [], 1, 1⟩ = (.unauthorized, stA)
  ∧ BookViewSet.retrieve { auth := none } stA 1 = .unauthorized
  ∧ BookViewSet.update { auth := none } stA 1 ⟨['T'], [], 1, 1⟩ = (.unauthorized, stA)
  ∧ BookViewSet.destroy { auth := none } stA 1 = (.unauthorized, stA) :=
  bookViewSet_unauthenticated_rejected { auth := none } stA 1 ⟨['T'], [], 1, 1⟩ rfl

/-- C2: `filterset_fields` is declared on `BookViewSet` but
`DjangoFilterBackend` is not among its `filter_backends`, so the
`author__name` query parameter is ignored: an authenticated list request with
`author__name=A` returns both fixture books although the second one is by
author "B"; the spec-side exact-name filter would keep only the first. -/
theorem bookViewSet_author_name_filter_ignored :
    BookViewSet.list { auth := some 1, params := { authorName := some ['A'] } } stA
      = .ok [bkAlpha, bkBeta]
  ∧ authorNameOf stA bkBeta = some ['B']
  ∧ specNameFilter stA { authorName := some ['A'] } stA.books = [bkAlpha] := by
  refine ⟨by decide, by decide, by decide⟩

/-- C3: `CustomPagination` defaults to 10 items per page; a `page_size`
parameter above `max_page_size = 100` is cut off at 100, and consequently no
page returned by the book list endpoint under `page_size=200` holds more than
100 books. -/
theorem customPagination_default_and_cap :
    getPageSize none = 10
  ∧ (∀ n, 100 < n → getPageSize (some n) = 100)
  ∧ (∀ (req : Request) (st : Store) (items : List Book),
      req.params.pageSize = some 200 → BookViewSet.list req st = .ok items →
      items.length ≤ 100) := by
  refine ⟨rfl, ?_, ?_⟩
  · intro n hn
    have hn0 : n ≠ 0 := by omega
    simp [getPageSize, customPaginationMaxSize, hn0,
      Nat.min_eq_right (Nat.le_of_lt hn)]
  · intro req st items hps h
    rcases Bool.eq_false_or_eq_true (checkPermissions bookViewSetPerms req.auth)
      with hperm | hperm
    · simp [BookViewSet.list, hperm] at h
      cases heq : paginateQueryset (getPageSize req.params.pageSize)
          req.params.page (filterQueryset bookViewSetBackends req.params st.books) with
      | none => rw [heq] at h; exact ListResp.noConfusion h
      | some a =>
        rw [heq] at h
        cases h
        have hl := paginate_length_le _ _ _ _ heq
        rw [hps] at hl
        exact Nat.le_trans hl (by decide)
    · simp [BookViewSet.list, hperm] at h

/-- C3 (witness): the cap and the page bound at a concrete request with
`page_size=200` against the fixture store. -/
theorem customPagination_default_and_cap_witness :
    getPageSize (some 200) = 100
  ∧ ([bkAlpha, bkBeta] : List Book).length ≤ 100 :=
  ⟨customPagination_default_and_cap.2.1 200 (by decide),
   customPagination_default_and_cap.2.2
     { auth := some 1, params := { pageSize := some 200 } } stA [bkAlpha, bkBeta]
     rfl (by decide)⟩

/-- C4 (counterexample): `SearchFilter` splits the search string into terms,
so the search string "b a" returns the book titled "a b" — every term occurs —
although "b a" is not a substring of its title or description, contradicting
whole-string substring semantics. -/
theorem bookSearch_whole_string_counterexample :
    BookViewSet.list { auth := some 1, params := { search := ['b',' ','a'] } } stAB
      = .ok [bkAB]
  ∧ specSearchMatches ['b',' ','a'] bkAB = false := by
  refine ⟨by decide, by decide⟩

/-- C4 (amended): the search string is split on whitespace and commas and a
book is returned exactly when every term occurs case-insensitively in its
title or description; for a separator-free search string this coincides with
case-insensitive whole-string substring match (a match in description alone
suffices), and the filter runs before pagination, so every returned page item
is a stored book matching the search. -/
theorem bookSearch_single_term_exact (q : List Char) (books : List Book)
    (h : ∀ c ∈ q, isSepChar c = false) :
    searchFilter q books = books.filter (fun b => specSearchMatches q b)
  ∧ (∀ (req : Request) (st : Store) (items : List Book),
      req.params.search = q → req.params.ordering = none →
      BookViewSet.list req st = .ok items →
      ∀ b ∈ items, b ∈ st.books ∧ specSearchMatches q b = true) := by
  refine ⟨searchFilter_sepFree q books h, ?_⟩
  intro req st items hs ho hlist b hb
  rcases Bool.eq_false_or_eq_true (checkPermissions bookViewSetPerms req.auth)
    with hperm | hperm
  · simp [BookViewSet.list, hperm] at hlist
    cases heq : paginateQueryset (getPageSize req.params.pageSize)
        req.params.page (filterQueryset bookViewSetBackends req.params st.books) with
    | none => rw [heq] at hlist; exact ListResp.noConfusion hlist
    | some a =>
      rw [heq] at hlist
      cases hlist
      have hmem := paginate_subset _ _ _ _ heq b hb
      have hfq : filterQueryset bookViewSetBackends req.params st.books
          = st.books.filter (fun b => specSearchMatches q b) := by
        simp [filterQueryset, bookViewSetBackends, FilterBackend.apply, hs, ho,
          orderingFilter, searchFilter_sepFree q st.books h]
      rw [hfq] at hmem
      have hsplit := List.mem_filter.mp hmem
      exact ⟨hsplit.1, hsplit.2⟩
  · simp [BookViewSet.list, hperm] at hlist

/-- C4 (witness): the amended theorem at the single-term search "alpha"
against the fixture store. -/
theorem bookSearch_single_term_exact_witness :
    searchFilter ['a','l','p','h','a'] stA.books
      = stA.books.filter (fun b => specSearchMatches ['a','l','p','h','a'] b)
  ∧ (bkAlpha ∈ stA.books ∧ specSearchMatches ['a','l','p','h','a'] bkAlpha = true) :=
  ⟨(bookSearch_single_term_exact ['a','l','p','h','a'] stA.books (by decide)).1,
   (bookSearch_single_term_exact ['a','l','p','h','a'] stA.books (by decide)).2
     { auth := some 1, params := { search := ['a','l','p','h','a'] } } stA [bkAlpha]
     rfl rfl (by decide) bkAlpha (by decide)⟩

/-- A credential check only reads the user table: updating tokens or the key
seed leaves its outcome unchanged. -/
lemma authTokenValidate_tokens_irrelevant (st : Store) (u p : List Char)
    (tks : List TokenRec) (seed : Nat) :
    authTokenValidate { st with tokens := tks, nextKeySeed := seed } u p
      = authTokenValidate st u p := by
  simp [authTokenValidate]

/-- C5: when the credentials validate, login succeeds with some token key, and
a second login against the resulting store succeeds with the same key: the
token is created at most once and then reused. -/
theorem login_token_idempotent (st : Store) (u p : List Char) (user : User)
    (h : authTokenValidate st u p = some user) :
    ∃ k, (UserLoginView.post st u p).1 = .ok user.id user.username user.email k
      ∧ (UserLoginView.post (UserLoginView.post st u p).2 u p).1
          = .ok user.id user.username user.email k := by
  cases hf : st.tokens.find? (fun t => t.userId = user.id) with
  | some t =>
    have e1 : UserLoginView.post st u p
        = (.ok user.id user.username user.email t.key, st) := by
      simp [UserLoginView.post, h, tokenGetOrCreate, hf]
    exact ⟨t.key, by rw [e1], by rw [e1]; rw [e1]⟩
  | none =>
    have e1 : UserLoginView.post st u p
        = (.ok user.id user.username user.email (genTokenKey st.nextKeySeed),
           { st with
               tokens := st.tokens ++ [⟨user.id, genTokenKey st.nextKeySeed⟩],
               nextKeySeed := st.nextKeySeed + 1 }) := by
      simp [UserLoginView.post, h, tokenGetOrCreate, hf]
    have h2 : authTokenValidate
        { st with
            tokens := st.tokens ++ [⟨user.id, genTokenKey st.nextKeySeed⟩],
            nextKeySeed := st.nextKeySeed + 1 } u p = some user := by
      rw [authTokenValidate_tokens_irrelevant]
      exact h
    have hf2 : ({ st with
        tokens := st.tokens ++ [⟨user.id, genTokenKey st.nextKeySeed⟩],
        nextKeySeed := st.nextKeySeed + 1 } : Store).tokens.find?
          (fun t => t.userId = user.id)
        = some ⟨user.id, genTokenKey st.nextKeySeed⟩ := by
      simp [List.find?_append, hf]
    have e2 : UserLoginView.post
        { st with
            tokens := st.tokens ++ [⟨user.id, genTokenKey st.nextKeySeed⟩],
            nextKeySeed := st.nextKeySeed + 1 } u p
        = (.ok user.id user.username user.email (genTokenKey st.nextKeySeed),
           { st with
               tokens := st.tokens ++ [⟨user.id, genTokenKey st.nextKeySeed⟩],
               nextKeySeed := st.nextKeySeed + 1 }) := by
      simp [UserLoginView.post, h2, tokenGetOrCreate, hf2]
    exact ⟨genTokenKey st.nextKeySeed, by rw [e1], by rw [e1]; rw [e2]⟩

/-- C5 (witness): two logins of the fixture user return the same key. -/
theorem login_token_idempotent_witness :
    ∃ k, (UserLoginView.post stA ['u'] ['p','w']).1
          = .ok userU.id userU.username userU.email k
      ∧ (UserLoginView.post (UserLoginView.post stA ['u'] ['p','w']).2 ['u'] ['p','w']).1
          = .ok userU.id userU.username userU.email k :=
  login_token_idempotent stA ['u'] ['p','w'] userU (by decide)

/-- C6: on any payload the serializer rejects, book create (on the viewset and
on the standalone create view) and book update return the field-level errors
and leave the store exactly as it was: validation runs in full before any
persistence. -/
theorem book_invalid_payload_no_write (req : Request) (st : Store)
    (bid uid : Nat) (p : BookPayload) (errs : List FieldError)
    (hauth : req.auth = some uid)
    (hval : bookSerializerValidate st p = .error errs) :
    BookViewSet.create req st p = (.badRequest errs, st)
  ∧ (∀ b0, st.books.find? (fun b => b.id = bid) = some b0 →
      BookViewSet.update req st bid p = (.badRequest errs, st))
  ∧ BookCreateView.create req st p = (.badRequest errs, st) := by
  have hperm : checkPermissions bookViewSetPerms req.auth = true := by
    simp [checkPermissions, bookViewSetPerms, Perm.check, hauth]
  refine ⟨?_, ?_, ?_⟩
  · simp [BookViewSet.create, hperm, hval]
  · intro b0 hb0
    simp [BookViewSet.update, hperm, hb0, hval]
  · simp [BookCreateView.create, checkPermissions, bookCreateViewPerms,
      Perm.check, hval]

/-- C6 (witness): a payload naming the non-existent author 9 is rejected by
create and update against the fixture store, which is left unchanged. -/
theorem book_invalid_payload_no_write_witness :
    BookViewSet.create { auth := some 1 } stA ⟨['T'], [], 9, 1⟩
      = (.badRequest [⟨['a','u','t','h','o','r'],
          ['d','o','e','s',' ','n','o','t',' ','e','x','i','s','t']⟩], stA)
  ∧ (∀ b0, stA.books.find? (fun b => b.id = 1) = some b0 →
      BookViewSet.update { auth := some 1 } stA 1 ⟨['T'], [], 9, 1⟩
        = (.badRequest [⟨['a','u','t','h','o','r'],
            ['d','o','e','s',' ','n','o','t',' ','e','x','i','s','t']⟩], stA))
  ∧ BookCreateView.create { auth := some 1 } stA ⟨['T'], [], 9, 1⟩
      = (.badRequest [⟨['a','u','t','h','o','r'],
          ['d','o','e','s',' ','n','o','t',' ','e','x','i','s','t']⟩], stA) :=
  book_invalid_payload_no_write { auth := some 1 } stA 1 1 ⟨['T'], [], 9, 1⟩
    [⟨['a','u','t','h','o','r'], ['d','o','e','s',' ','n','o','t',' ','e','x','i','s','t']⟩]
    rfl (by decide)

/-- C7: registration with a valid payload appends exactly one user built from
the payload and returns the new identifier and username; on any invalid
payload it returns the field-level errors and leaves the store untouched; and
a payload whose username duplicates a stored user is always invalid. -/
theorem registration_create_and_duplicate (st : Store) (p : RegPayload) :
    (userSerializerValidate st p = none →
      UserRegistrationView.create st p
        = (.created st.nextUserId p.username,
           { st with
               users := st.users ++ [⟨st.nextUserId, p.username, p.email, p.password⟩],
               nextUserId := st.nextUserId + 1 }))
  ∧ (∀ errs, userSerializerValidate st p = some errs →
      UserRegistrationView.create st p = (.badRequest errs, st))
  ∧ (∀ u, u ∈ st.users → u.username = p.username →
      userSerializerValidate st p ≠ none) := by
  refine ⟨?_, ?_, ?_⟩
  · intro hv
    simp [UserRegistrationView.create, hv]
  · intro errs hv
    simp [UserRegistrationView.create, hv]
  · intro u hu hname hcontra
    have hsome : (st.users.find? (fun v => v.username = p.username)).isSome := by
      rw [List.find?_isSome]
      exact ⟨u, hu, by simp [hname]⟩
    by_cases he : p.username.isEmpty
    · simp [userSerializerValidate, he] at hcontra
    · simp [userSerializerValidate, he, hsome] at hcontra

/-- C7 (witness): registering the fresh username "v" succeeds and appends the
user; registering the taken username "u" fails with a field error, leaves the
store unchanged, and is invalid because of the duplicate. -/
theorem registration_create_and_duplicate_witness :
    UserRegistrationView.create stA ⟨['v'], ['e'], ['p']⟩
      = (.created 2 ['v'],
         { stA with users := stA.users ++ [⟨2, ['v'], ['e'], ['p']⟩], nextUserId := 3 })
  ∧ UserRegistrationView.create stA ⟨['u'], ['e'], ['p']⟩
      = (.badRequest [⟨['u','s','e','r','n','a','m','e'],
          ['a','l','r','e','a','d','y',' ','e','x','i','s','t','s']⟩], stA)
  ∧ userSerializerValidate stA ⟨['u'], ['e'], ['p']⟩ ≠ none :=
  ⟨(registration_create_and_duplicate stA ⟨['v'], ['e'], ['p']⟩).1 (by decide),
   (registration_create_and_duplicate stA ⟨['u'], ['e'], ['p']⟩).2.1
     [⟨['u','s','e','r','n','a','m','e'],
       ['a','l','r','e','a','d','y',' ','e','x','i','s','t','s']⟩] (by decide),
   (registration_create_and_duplicate stA ⟨['u'], ['e'], ['p']⟩).2.2
     userU (by decide) (by decide)⟩

/-- C8: the listing page endpoint serves every request (it is read-only and
pure in the store) with the complete author set, the complete category set and
the book set produced by its filter pipeline — which, this view configuring no
filter backends, is the complete book set — with no pagination applied to any
of the three. -/
theorem bookListView_returns_full_sets (req : Request) (st : Store) :
    BookListView.list req st = .ok ⟨st.authors, st.categories, st.books⟩ := by
  simp [BookListView.list, checkPermissions, bookListViewPerms, Perm.check,
    filterQueryset, bookListViewBackends]

/-- C9: a login whose credentials fail validation gets the serializer errors
as a 400 response, and that response is one constant — identical whether the
username is unknown or the password wrong — so it reveals nothing about which
field was at fault. -/
theorem login_failure_error_uniform (st : Store) (u1 p1 u2 p2 : List Char)
    (h1 : authTokenValidate st u1 p1 = none)
    (h2 : authTokenValidate st u2 p2 = none) :
    (UserLoginView.post st u1 p1).1 = .badRequest authFailErrors
  ∧ (UserLoginView.post st u1 p1).1 = (UserLoginView.post st u2 p2).1 := by
  constructor <;> simp [UserLoginView.post, h1, h2]

/-- C9 (witness): an unknown username and a wrong password produce the same
400 error against the fixture store. -/
theorem login_failure_error_uniform_witness :
    (UserLoginView.post stA ['z'] ['p','w']).1 = .badRequest authFailErrors
  ∧ (UserLoginView.post stA ['z'] ['p','w']).1
      = (UserLoginView.post stA ['u'] ['x']).1 :=
  login_failure_error_uniform stA ['z'] ['p','w'] ['u'] ['x'] (by decide) (by decide)

/-- C10: a failed login returns the 400 error and the store it leaves behind
is the store it started from — in particular no token is created or modified,
the fetch-or-create running only on the successful branch. -/
theorem login_failure_leaves_store (st : Store) (u p : List Char)
    (h : authTokenValidate st u p = none) :
    UserLoginView.post st u p = (.badRequest authFailErrors, st) := by
  simp [UserLoginView.post, h]

/-- C10 (witness): a login with the wrong password leaves the fixture store
untouched. -/
theorem login_failure_leaves_store_witness :
    UserLoginView.post stA ['u'] ['w','r','o','n','g']
      = (.badRequest authFailErrors, stA) :=
  login_failure_leaves_store stA ['u'] ['w','r','o','n','g'] (by decide)
